import Mathlib

/-!
Shallow embedding of `src/mpi-circles.c` (circle-intersection simulation,
MPI version).  Floating-point values are idealised as real numbers, and
`hypotf` as the exact Euclidean norm; machine integers are natural numbers
(no quantity here approaches overflow).  The per-rank MPI choreography of
`main` (broadcast, reduce, in-place allgather) is embedded as explicit
functions on lists of circle records.
-/

namespace Circles

/-- Mirrors `circle_t`: center `(x, y)`, radius `r`, pending displacement
`(dx, dy)`. -/
structure Circle where
  x : ℝ
  y : ℝ
  r : ℝ
  dx : ℝ
  dy : ℝ

instance : Inhabited Circle := ⟨⟨0, 0, 0, 0, 0⟩⟩

/-- Mirrors `const float EPSILON = 1e-5`. -/
def EPSILON : ℝ := 1e-5

/-- Mirrors `const float K = 1.5`. -/
def K : ℝ := 1.5

/-- Mirrors `hypotf`: Euclidean norm of `(a, b)`. -/
noncomputable def hypot (a b : ℝ) : ℝ := Real.sqrt (a ^ 2 + b ^ 2)

/-- Element access `circles[i]`; mirrors C array indexing (the program only
ever indexes inside bounds, so the default value is never reached). -/
def nth (cs : List Circle) (i : ℕ) : Circle := cs.getD i default

/-- The `overlap_x` value computed in the body of `compute_forces` for the
pair `(ci, cj)`: the fallback direction `overlap / sqrt 2` when the centers
(almost) coincide, otherwise `overlap / dist * deltax`. -/
noncomputable def overlapX (ci cj : Circle) : ℝ :=
  let deltax := cj.x - ci.x
  let deltay := cj.y - ci.y
  let dist := hypot deltax deltay
  let overlap := ci.r + cj.r - dist
  if dist < EPSILON then overlap / Real.sqrt 2 else overlap / dist * deltax

/-- The `overlap_y` value computed in the body of `compute_forces` for the
pair `(ci, cj)`. -/
noncomputable def overlapY (ci cj : Circle) : ℝ :=
  let deltax := cj.x - ci.x
  let deltay := cj.y - ci.y
  let dist := hypot deltax deltay
  let overlap := ci.r + cj.r - dist
  if dist < EPSILON then overlap / Real.sqrt 2 else overlap / dist * deltay

/-- One inner-loop body of `compute_forces` for indices `(i, j)`: skip when
`i = j`; otherwise test `dist < Rsum - EPSILON` and on overlap apply the
damped antisymmetric displacement to circles `i` and `j`, counting one
intersection. -/
noncomputable def pairUpdate (cs : List Circle) (i j : ℕ) : List Circle × ℕ :=
  if i = j then (cs, 0)
  else
    let ci := nth cs i
    let cj := nth cs j
    let dist := hypot (cj.x - ci.x) (cj.y - ci.y)
    if dist < ci.r + cj.r - EPSILON then
      let ox := overlapX ci cj
      let oy := overlapY ci cj
      let cs1 := cs.set i { ci with dx := ci.dx - ox / K, dy := ci.dy - oy / K }
      let cj1 := nth cs1 j
      let cs2 := cs1.set j { cj1 with dx := cj1.dx + ox / K, dy := cj1.dy + oy / K }
      (cs2, 1)
    else (cs, 0)

/-- The inner loop of `compute_forces`: scan `j` over the whole set `[0, n)`
for a fixed `i`. -/
noncomputable def innerScan (cs : List Circle) (i n : ℕ) : List Circle × ℕ :=
  (List.range n).foldl
    (fun acc j =>
      let r := pairUpdate acc.1 i j
      (r.1, acc.2 + r.2))
    (cs, 0)

/-- Mirrors `compute_forces(start, end)`: scan `i` over `[start, e)`, each
against the full set of `n` circles, accumulating the intersection count. -/
noncomputable def compute_forces (start e n : ℕ) (cs : List Circle) :
    List Circle × ℕ :=
  (List.range' start (e - start)).foldl
    (fun acc i =>
      let r := innerScan acc.1 i n
      (r.1, acc.2 + r.2))
    (cs, 0)

/-- Mirrors `reset_displacements`: zero every circle's `dx, dy`. -/
def reset_displacements (cs : List Circle) : List Circle :=
  cs.map (fun c => { c with dx := 0, dy := 0 })

/-- Mirrors `move_circles`: add each circle's pending displacement to its
position. -/
def move_circles (cs : List Circle) : List Circle :=
  cs.map (fun c => { c with x := c.x + c.dx, y := c.y + c.dy })

/-- Mirrors `int start = (rank * ncircles) / size` in `main`. -/
def partStart (n w p : ℕ) : ℕ := p * n / w

/-- Mirrors `int end = ((rank + 1) * ncircles) / size` in `main`. -/
def partEnd (n w p : ℕ) : ℕ := (p + 1) * n / w

/-- The in-place `MPI_Allgather` of `main` with per-rank receive count
`ncircles / size` records: after the call, the block of indices
`[p * (n / w), (p + 1) * (n / w))` of every replica holds rank `p`'s local
values; indices at or beyond `w * (n / w)` are not touched by the gather,
so on rank 0 (whose post-`move_circles` array is the one broadcast to all)
they keep rank 0's local values. -/
noncomputable def mpiMerge (n w : ℕ) (locals : ℕ → List Circle) :
    List Circle :=
  let b := n / w
  (List.range n).map
    (fun idx => if idx < w * b then nth (locals (idx / b)) idx
                else nth (locals 0) idx)

/-- One iteration of the main loop of `main`, as observed on the state that
rank 0 broadcasts at the end of the iteration: reset displacements, each of
the `w` ranks runs `compute_forces` on its partition of its own replica,
the local overlap counts are summed (`MPI_Reduce` with `MPI_SUM`), the
local arrays are combined by the in-place `MPI_Allgather`, and
`move_circles` integrates the merged displacements.  Returns the resulting
circle set and the aggregated overlap total. -/
noncomputable def mpiIteration (n w : ℕ) (cs : List Circle) :
    List Circle × ℕ :=
  let cs0 := reset_displacements cs
  let locals := fun p => compute_forces (partStart n w p) (partEnd n w p) n cs0
  let total := (List.range w).foldl (fun acc p => acc + (locals p).2) 0
  let merged := mpiMerge n w (fun p => (locals p).1)
  (move_circles merged, total)

/-- Two circle records that agree on position and radius. -/
def samePos (a b : Circle) : Prop := a.x = b.x ∧ a.y = b.y ∧ a.r = b.r

/-- A state transition that preserves length, positions and radii. -/
def frameOK (cs cs' : List Circle) : Prop :=
  cs'.length = cs.length ∧ ∀ idx, samePos (nth cs' idx) (nth cs idx)

/-- The initial circle set of the end-to-end scenario in the spec: two
heavily overlapping circles centered at `(0, 0)` and `(5, 0)`, both of
radius `10`, with zero pending displacement. -/
def twoCircles : List Circle := [⟨0, 0, 10, 0, 0⟩, ⟨5, 0, 10, 0, 0⟩]

/-! ### Basic facts about the constants and the norm -/

lemma EPSILON_pos : (0 : ℝ) < EPSILON := by norm_num [EPSILON]

lemma K_pos : (0 : ℝ) < K := by norm_num [K]

lemma hypot_nonneg (a b : ℝ) : 0 ≤ hypot a b := Real.sqrt_nonneg _

lemma hypot_axis (a : ℝ) : hypot a 0 = |a| := by
  simp [hypot, Real.sqrt_sq_eq_abs]

lemma hypot_zero : hypot 0 0 = 0 := by simp [hypot]

/-! ### Array-access lemmas -/

lemma nth_set_self (cs : List Circle) (i : ℕ) (c : Circle)
    (h : i < cs.length) : nth (cs.set i c) i = c := by
  rw [nth, List.getD_eq_getElem _ _ (by simpa using h)]
  simp

lemma nth_set_ne (cs : List Circle) (i j : ℕ) (c : Circle) (h : i ≠ j) :
    nth (cs.set i c) j = nth cs j := by
  rw [nth, nth, List.getD_eq_getD_get?, List.getD_eq_getD_get?]
  simp [List.getElem?_set_ne h]

/-! ### Structural lemmas about the inner-loop body -/

lemma pairUpdate_self (cs : List Circle) (i : ℕ) :
    pairUpdate cs i i = (cs, 0) := by
  simp [pairUpdate]

lemma pairUpdate_no_overlap (cs : List Circle) (i j : ℕ)
    (h : ¬ hypot ((nth cs j).x - (nth cs i).x) ((nth cs j).y - (nth cs i).y)
         < (nth cs i).r + (nth cs j).r - EPSILON) :
    pairUpdate cs i j = (cs, 0) := by
  unfold pairUpdate
  by_cases hij : i = j
  · simp [hij]
  · simp only [hij, if_false, if_neg h]

lemma pairUpdate_overlap (cs : List Circle) (i j : ℕ) (hij : i ≠ j)
    (h : hypot ((nth cs j).x - (nth cs i).x) ((nth cs j).y - (nth cs i).y)
         < (nth cs i).r + (nth cs j).r - EPSILON) :
    pairUpdate cs i j =
      ((cs.set i
          { nth cs i with
            dx := (nth cs i).dx - overlapX (nth cs i) (nth cs j) / K,
            dy := (nth cs i).dy - overlapY (nth cs i) (nth cs j) / K }).set j
          { nth cs j with
            dx := (nth cs j).dx + overlapX (nth cs i) (nth cs j) / K,
            dy := (nth cs j).dy + overlapY (nth cs i) (nth cs j) / K }, 1) := by
  unfold pairUpdate
  simp only [hij, if_false, if_pos h]
  rw [nth_set_ne _ _ _ _ hij]

lemma overlapX_far (ci cj : Circle)
    (h : ¬ hypot (cj.x - ci.x) (cj.y - ci.y) < EPSILON) :
    overlapX ci cj =
      (ci.r + cj.r - hypot (cj.x - ci.x) (cj.y - ci.y)) /
        hypot (cj.x - ci.x) (cj.y - ci.y) * (cj.x - ci.x) := by
  simp only [overlapX]
  rw [if_neg h]

lemma overlapY_far (ci cj : Circle)
    (h : ¬ hypot (cj.x - ci.x) (cj.y - ci.y) < EPSILON) :
    overlapY ci cj =
      (ci.r + cj.r - hypot (cj.x - ci.x) (cj.y - ci.y)) /
        hypot (cj.x - ci.x) (cj.y - ci.y) * (cj.y - ci.y) := by
  simp only [overlapY]
  rw [if_neg h]

lemma overlapX_near (ci cj : Circle)
    (h : hypot (cj.x - ci.x) (cj.y - ci.y) < EPSILON) :
    overlapX ci cj =
      (ci.r + cj.r - hypot (cj.x - ci.x) (cj.y - ci.y)) / Real.sqrt 2 := by
  simp only [overlapX]
  rw [if_pos h]

lemma overlapY_near (ci cj : Circle)
    (h : hypot (cj.x - ci.x) (cj.y - ci.y) < EPSILON) :
    overlapY ci cj =
      (ci.r + cj.r - hypot (cj.x - ci.x) (cj.y - ci.y)) / Real.sqrt 2 := by
  simp only [overlapY]
  rw [if_pos h]

/-! ### Frame reasoning: `compute_forces` only touches `dx, dy` -/

lemma samePos_refl (a : Circle) : samePos a a := ⟨rfl, rfl, rfl⟩

lemma samePos_trans {a b c : Circle} (h1 : samePos a b) (h2 : samePos b c) :
    samePos a c :=
  ⟨h1.1.trans h2.1, h1.2.1.trans h2.2.1, h1.2.2.trans h2.2.2⟩

lemma frameOK_refl (cs : List Circle) : frameOK cs cs :=
  ⟨rfl, fun _ => samePos_refl _⟩

lemma frameOK_trans {cs1 cs2 cs3 : List Circle} (h1 : frameOK cs1 cs2)
    (h2 : frameOK cs2 cs3) : frameOK cs1 cs3 :=
  ⟨h2.1.trans h1.1, fun idx => samePos_trans (h2.2 idx) (h1.2 idx)⟩

lemma frameOK_set (cs : List Circle) (i idx : ℕ) (c : Circle)
    (h : samePos c (nth cs i)) : samePos (nth (cs.set i c) idx) (nth cs idx) := by
  rcases eq_or_ne i idx with rfl | hne
  · by_cases hlen : i < cs.length
    · rw [nth_set_self _ _ _ hlen]; exact h
    · have hge : cs.length ≤ i := Nat.le_of_not_lt hlen
      rw [nth, List.getD_eq_default _ _ (by simpa using hge),
          nth, List.getD_eq_default _ _ hge]
      exact samePos_refl _
  · rw [nth_set_ne _ _ _ _ hne]; exact samePos_refl _

lemma pairUpdate_frameOK (cs : List Circle) (i j : ℕ) :
    frameOK cs (pairUpdate cs i j).1 := by
  unfold pairUpdate
  by_cases hij : i = j
  · simp [hij, frameOK_refl]
  · simp only [hij, if_false]
    by_cases hov :
        hypot ((nth cs j).x - (nth cs i).x) ((nth cs j).y - (nth cs i).y)
          < (nth cs i).r + (nth cs j).r - EPSILON
    · simp only [if_pos hov]
      constructor
      · simp [List.length_set]
      · intro idx
        exact samePos_trans
          (frameOK_set _ j idx _ ⟨rfl, rfl, rfl⟩)
          (frameOK_set cs i idx _ ⟨rfl, rfl, rfl⟩)
    · simp [if_neg hov, frameOK_refl]

/-- The list component of the accumulating folds used by `innerScan` and
`compute_forces` never depends on the running count. -/
lemma foldl_fst_count_free (g : List Circle → ℕ → List Circle)
    (h : List Circle → ℕ → ℕ) :
    ∀ (l : List ℕ) (a : List Circle) (c : ℕ),
      (l.foldl (fun acc j => (g acc.1 j, acc.2 + h acc.1 j)) (a, c)).1 =
      (l.foldl (fun acc j => (g acc.1 j, acc.2 + h acc.1 j)) (a, 0)).1 := by
  intro l
  induction l with
  | nil => intro a c; rfl
  | cons j t ih =>
      intro a c
      simp only [List.foldl_cons]
      rw [ih (g a j) (c + h a j), ih (g a j) (0 + h a j)]

/-- Any step-local frame property lifts to the accumulating folds. -/
lemma foldl_fst_frameOK (g : List Circle → ℕ → List Circle)
    (h : List Circle → ℕ → ℕ) (hg : ∀ a j, frameOK a (g a j)) :
    ∀ (l : List ℕ) (a : List Circle) (c : ℕ),
      frameOK a (l.foldl (fun acc j => (g acc.1 j, acc.2 + h acc.1 j)) (a, c)).1 := by
  intro l
  induction l with
  | nil => intro a c; exact frameOK_refl a
  | cons j t ih =>
      intro a c
      simp only [List.foldl_cons]
      exact frameOK_trans (hg a j) (ih (g a j) (c + h a j))

lemma innerScan_frameOK (cs : List Circle) (i n : ℕ) :
    frameOK cs (innerScan cs i n).1 :=
  foldl_fst_frameOK (fun a j => (pairUpdate a i j).1)
    (fun a j => (pairUpdate a i j).2) (fun a j => pairUpdate_frameOK a i j)
    (List.range n) cs 0

lemma compute_forces_frameOK (start e n : ℕ) (cs : List Circle) :
    frameOK cs (compute_forces start e n cs).1 :=
  foldl_fst_frameOK (fun a i => (innerScan a i n).1)
    (fun a i => (innerScan a i n).2) (fun a i => innerScan_frameOK a i n)
    (List.range' start (e - start)) cs 0

/-! ### Partitioner lemmas -/

lemma partEnd_eq (n w p : ℕ) : partEnd n w p = partStart n w (p + 1) := rfl

lemma partStart_mono (n w : ℕ) {p q : ℕ} (h : p ≤ q) :
    partStart n w p ≤ partStart n w q :=
  Nat.div_le_div_right (Nat.mul_le_mul_right n h)

lemma partStart_zero (n w : ℕ) : partStart n w 0 = 0 := by simp [partStart]

lemma partStart_last (n w : ℕ) (hw : 0 < w) : partStart n w w = n := by
  simp [partStart, Nat.mul_div_cancel_left n hw]

lemma partStart_le_partEnd (n w p : ℕ) : partStart n w p ≤ partEnd n w p :=
  partStart_mono n w (Nat.le_succ p)

lemma part_size_lower (n w p : ℕ) :
    partStart n w p + n / w ≤ partEnd n w p := by
  have h := Nat.add_div_le_add_div (p * n) n w
  simpa [partStart, partEnd, Nat.succ_mul] using h

lemma part_size_upper (n w p : ℕ) (hw : 0 < w) :
    partEnd n w p ≤ partStart n w p + n / w + 1 := by
  have h : (p * n + n) / w ≤ p * n / w + n / w + 1 := by
    rw [Nat.add_div hw]
    split <;> omega
  simpa [partStart, partEnd, Nat.succ_mul] using h

/-! ### Concrete evaluation: the two heavily-overlapping circles of the
end-to-end scenario, centers `(0,0)` and `(5,0)`, radius `10` each -/

/-- Distance between the two scenario centers, independent of the pending
displacements. -/
lemma scenario_dist (d1 d2 d3 d4 : ℝ) :
    hypot (((⟨5, 0, 10, d3, d4⟩ : Circle)).x - ((⟨0, 0, 10, d1, d2⟩ : Circle)).x)
      (((⟨5, 0, 10, d3, d4⟩ : Circle)).y - ((⟨0, 0, 10, d1, d2⟩ : Circle)).y) = 5 := by
  show hypot (5 - 0) (0 - 0) = 5
  rw [show ((5 : ℝ) - 0) = 5 by norm_num, show ((0 : ℝ) - 0) = 0 by norm_num,
    hypot_axis]
  norm_num

/-- Distance between the two scenario centers, reversed orientation. -/
lemma scenario_dist_rev (d1 d2 d3 d4 : ℝ) :
    hypot (((⟨0, 0, 10, d1, d2⟩ : Circle)).x - ((⟨5, 0, 10, d3, d4⟩ : Circle)).x)
      (((⟨0, 0, 10, d1, d2⟩ : Circle)).y - ((⟨5, 0, 10, d3, d4⟩ : Circle)).y) = 5 := by
  show hypot (0 - 5) (0 - 0) = 5
  rw [show ((0 : ℝ) - 5) = -5 by norm_num, show ((0 : ℝ) - 0) = 0 by norm_num,
    hypot_axis]
  norm_num

lemma scenario_ovX (d1 d2 d3 d4 : ℝ) :
    overlapX (⟨0, 0, 10, d1, d2⟩ : Circle) (⟨5, 0, 10, d3, d4⟩ : Circle) = 15 := by
  rw [overlapX_far _ _ (by rw [scenario_dist]; norm_num [EPSILON]),
    scenario_dist]
  show ((10 : ℝ) + 10 - 5) / 5 * (5 - 0) = 15
  norm_num

lemma scenario_ovY (d1 d2 d3 d4 : ℝ) :
    overlapY (⟨0, 0, 10, d1, d2⟩ : Circle) (⟨5, 0, 10, d3, d4⟩ : Circle) = 0 := by
  rw [overlapY_far _ _ (by rw [scenario_dist]; norm_num [EPSILON]),
    scenario_dist]
  show ((10 : ℝ) + 10 - 5) / 5 * (0 - 0) = 0
  norm_num

lemma scenario_ovX_rev (d1 d2 d3 d4 : ℝ) :
    overlapX (⟨5, 0, 10, d3, d4⟩ : Circle) (⟨0, 0, 10, d1, d2⟩ : Circle) = -15 := by
  rw [overlapX_far _ _ (by rw [scenario_dist_rev]; norm_num [EPSILON]),
    scenario_dist_rev]
  show ((10 : ℝ) + 10 - 5) / 5 * (0 - 5) = -15
  norm_num

lemma scenario_ovY_rev (d1 d2 d3 d4 : ℝ) :
    overlapY (⟨5, 0, 10, d3, d4⟩ : Circle) (⟨0, 0, 10, d1, d2⟩ : Circle) = 0 := by
  rw [overlapY_far _ _ (by rw [scenario_dist_rev]; norm_num [EPSILON]),
    scenario_dist_rev]
  show ((10 : ℝ) + 10 - 5) / 5 * (0 - 0) = 0
  norm_num

/-- Scanning the ordered pair `(0, 1)` on the scenario circles adds `-10`
to circle 0's `dx` and `+10` to circle 1's `dx`. -/
lemma scenario_pairUpdate_01 (d1 d2 d3 d4 : ℝ) :
    pairUpdate [(⟨0, 0, 10, d1, d2⟩ : Circle), ⟨5, 0, 10, d3, d4⟩] 0 1 =
      ([(⟨0, 0, 10, d1 - 10, d2⟩ : Circle), ⟨5, 0, 10, d3 + 10, d4⟩], 1) := by
  rw [pairUpdate_overlap _ 0 1 (by norm_num)
    (by show hypot (5 - 0) (0 - 0) < 10 + 10 - EPSILON
        rw [show ((5 : ℝ) - 0) = 5 by norm_num, show ((0 : ℝ) - 0) = 0 by norm_num,
          hypot_axis]
        norm_num [EPSILON])]
  show (([(⟨0, 0, 10, d1, d2⟩ : Circle), ⟨5, 0, 10, d3, d4⟩].set 0 _).set 1 _, 1) = _
  rw [show nth [(⟨0, 0, 10, d1, d2⟩ : Circle), ⟨5, 0, 10, d3, d4⟩] 0 =
      ⟨0, 0, 10, d1, d2⟩ from rfl,
    show nth [(⟨0, 0, 10, d1, d2⟩ : Circle), ⟨5, 0, 10, d3, d4⟩] 1 =
      ⟨5, 0, 10, d3, d4⟩ from rfl,
    scenario_ovX, scenario_ovY]
  norm_num [K, List.set, Circle.mk.injEq]

/-- Scanning the ordered pair `(1, 0)` on the scenario circles has the same
effect: `-10` to circle 0's `dx`, `+10` to circle 1's `dx`. -/
lemma scenario_pairUpdate_10 (d1 d2 d3 d4 : ℝ) :
    pairUpdate [(⟨0, 0, 10, d1, d2⟩ : Circle), ⟨5, 0, 10, d3, d4⟩] 1 0 =
      ([(⟨0, 0, 10, d1 - 10, d2⟩ : Circle), ⟨5, 0, 10, d3 + 10, d4⟩], 1) := by
  rw [pairUpdate_overlap _ 1 0 (by norm_num)
    (by show hypot (0 - 5) (0 - 0) < 10 + 10 - EPSILON
        rw [show ((0 : ℝ) - 5) = -5 by norm_num, show ((0 : ℝ) - 0) = 0 by norm_num,
          hypot_axis]
        norm_num [EPSILON])]
  show (([(⟨0, 0, 10, d1, d2⟩ : Circle), ⟨5, 0, 10, d3, d4⟩].set 1 _).set 0 _, 1) = _
  rw [show nth [(⟨0, 0, 10, d1, d2⟩ : Circle), ⟨5, 0, 10, d3, d4⟩] 0 =
      ⟨0, 0, 10, d1, d2⟩ from rfl,
    show nth [(⟨0, 0, 10, d1, d2⟩ : Circle), ⟨5, 0, 10, d3, d4⟩] 1 =
      ⟨5, 0, 10, d3, d4⟩ from rfl,
    scenario_ovX_rev, scenario_ovY_rev]
  norm_num [K, List.set, Circle.mk.injEq]
  ring

/-- The inner scan of row `i = 0` over both scenario circles. -/
lemma scenario_innerScan_0 (d1 d2 d3 d4 : ℝ) :
    innerScan [(⟨0, 0, 10, d1, d2⟩ : Circle), ⟨5, 0, 10, d3, d4⟩] 0 2 =
      ([(⟨0, 0, 10, d1 - 10, d2⟩ : Circle), ⟨5, 0, 10, d3 + 10, d4⟩], 1) := by
  unfold innerScan
  rw [show List.range 2 = [0, 1] from rfl]
  simp only [List.foldl_cons, List.foldl_nil, pairUpdate_self,
    scenario_pairUpdate_01]

/-- The inner scan of row `i = 1` over both scenario circles. -/
lemma scenario_innerScan_1 (d1 d2 d3 d4 : ℝ) :
    innerScan [(⟨0, 0, 10, d1, d2⟩ : Circle), ⟨5, 0, 10, d3, d4⟩] 1 2 =
      ([(⟨0, 0, 10, d1 - 10, d2⟩ : Circle), ⟨5, 0, 10, d3 + 10, d4⟩], 1) := by
  unfold innerScan
  rw [show List.range 2 = [0, 1] from rfl]
  simp only [List.foldl_cons, List.foldl_nil, pairUpdate_self,
    scenario_pairUpdate_10]

/-- A single worker scanning the whole range `[0, 2)` sees the overlapping
pair twice (once per orientation) and doubles the displacement. -/
lemma scenario_compute_full :
    compute_forces 0 2 2 [(⟨0, 0, 10, 0, 0⟩ : Circle), ⟨5, 0, 10, 0, 0⟩] =
      ([(⟨0, 0, 10, -20, 0⟩ : Circle), ⟨5, 0, 10, 20, 0⟩], 2) := by
  unfold compute_forces
  rw [show List.range' 0 (2 - 0) = [0, 1] from rfl]
  simp only [List.foldl_cons, List.foldl_nil, scenario_innerScan_0,
    scenario_innerScan_1]
  norm_num

/-- Worker 0 of a two-worker run scans only row 0 and sees the pair once. -/
lemma scenario_compute_w2_rank0 :
    compute_forces 0 1 2 [(⟨0, 0, 10, 0, 0⟩ : Circle), ⟨5, 0, 10, 0, 0⟩] =
      ([(⟨0, 0, 10, -10, 0⟩ : Circle), ⟨5, 0, 10, 10, 0⟩], 1) := by
  unfold compute_forces
  rw [show List.range' 0 (1 - 0) = [0] from rfl]
  simp only [List.foldl_cons, List.foldl_nil, scenario_innerScan_0]
  norm_num

/-- Worker 1 of a two-worker run scans only row 1 and sees the pair once. -/
lemma scenario_compute_w2_rank1 :
    compute_forces 1 2 2 [(⟨0, 0, 10, 0, 0⟩ : Circle), ⟨5, 0, 10, 0, 0⟩] =
      ([(⟨0, 0, 10, -10, 0⟩ : Circle), ⟨5, 0, 10, 10, 0⟩], 1) := by
  unfold compute_forces
  rw [show List.range' 1 (2 - 1) = [1] from rfl]
  simp only [List.foldl_cons, List.foldl_nil, scenario_innerScan_1]
  norm_num

lemma scenario_reset :
    reset_displacements [(⟨0, 0, 10, 0, 0⟩ : Circle), ⟨5, 0, 10, 0, 0⟩] =
      [(⟨0, 0, 10, 0, 0⟩ : Circle), ⟨5, 0, 10, 0, 0⟩] := rfl

/-- One iteration of the scenario on a single worker: overlap total `2`,
final positions `(-20, 0)` and `(25, 0)`. -/
lemma scenario_iter_w1 :
    mpiIteration 2 1 [(⟨0, 0, 10, 0, 0⟩ : Circle), ⟨5, 0, 10, 0, 0⟩] =
      ([(⟨-20, 0, 10, -20, 0⟩ : Circle), ⟨25, 0, 10, 20, 0⟩], 2) := by
  unfold mpiIteration
  rw [scenario_reset]
  norm_num [partStart, partEnd, mpiMerge, nth, move_circles,
    scenario_compute_full, Circle.mk.injEq,
    show List.range 1 = [0] from rfl, show List.range 2 = [0, 1] from rfl]

/-- One iteration of the scenario on two workers: overlap total `2`, but
final positions `(-10, 0)` and `(15, 0)` (the allgather merge discards each
worker's cross-partition displacement contribution). -/
lemma scenario_iter_w2 :
    mpiIteration 2 2 [(⟨0, 0, 10, 0, 0⟩ : Circle), ⟨5, 0, 10, 0, 0⟩] =
      ([(⟨-10, 0, 10, -10, 0⟩ : Circle), ⟨15, 0, 10, 10, 0⟩], 2) := by
  unfold mpiIteration
  rw [scenario_reset]
  norm_num [partStart, partEnd, mpiMerge, nth, move_circles,
    scenario_compute_w2_rank0, scenario_compute_w2_rank1, Circle.mk.injEq,
    show List.range 2 = [0, 1] from rfl]

lemma reset_single (c : Circle) :
    reset_displacements [c] = [{ c with dx := 0, dy := 0 }] := rfl

lemma compute_single (d : Circle) : compute_forces 0 1 1 [d] = ([d], 0) := by
  unfold compute_forces innerScan
  rw [show List.range' 0 (1 - 0) = [0] from rfl, show List.range 1 = [0] from rfl]
  simp only [List.foldl_cons, List.foldl_nil, pairUpdate_self]

lemma nth_move (cs : List Circle) (idx : ℕ) :
    nth (move_circles cs) idx =
      { nth cs idx with
        x := (nth cs idx).x + (nth cs idx).dx,
        y := (nth cs idx).y + (nth cs idx).dy } := by
  by_cases h : idx < cs.length
  · rw [nth, List.getD_eq_getElem _ _ (by simpa [move_circles] using h),
      nth, List.getD_eq_getElem _ _ h]
    simp [move_circles]
  · have hge : cs.length ≤ idx := Nat.le_of_not_lt h
    rw [nth, List.getD_eq_default _ _ (by simpa [move_circles] using hge),
      nth, List.getD_eq_default _ _ hge]
    show (default : Circle) = ⟨0 + 0, 0 + 0, 0, 0, 0⟩
    norm_num
    rfl

/-! ## Claims -/

/-- C4: for every `n ≥ 0` and worker count `w ≥ 1`, the ranges
`[p * n / w, (p + 1) * n / w)` for `p = 0 .. w - 1` are pairwise disjoint,
their union is exactly `[0, n)`, and any two range sizes differ by at most
one. -/
theorem partition_disjoint_cover_balanced (n w : ℕ) (hw : 0 < w) :
    (∀ p q k, p < w → q < w → p ≠ q →
      ¬(partStart n w p ≤ k ∧ k < partEnd n w p ∧
        partStart n w q ≤ k ∧ k < partEnd n w q)) ∧
    (∀ k, k < n ↔ ∃ p, p < w ∧ partStart n w p ≤ k ∧ k < partEnd n w p) ∧
    (∀ p q, p < w → q < w →
      partEnd n w p - partStart n w p ≤ partEnd n w q - partStart n w q + 1) := by
  refine ⟨?_, ?_, ?_⟩
  · rintro p q k hp hq hpq ⟨h1, h2, h3, h4⟩
    rcases Nat.lt_or_ge p q with hlt | hge
    · have : partEnd n w p ≤ partStart n w q := by
        rw [partEnd_eq]
        exact partStart_mono n w hlt
      omega
    · have hqp : q < p := by omega
      have : partEnd n w q ≤ partStart n w p := by
        rw [partEnd_eq]
        exact partStart_mono n w hqp
      omega
  · intro k
    constructor
    · intro hk
      set P : ℕ → Prop := fun p => partStart n w p ≤ k with hP
      set p0 := Nat.findGreatest P (w - 1) with hp0
      have h0 : p0 ≤ w - 1 := Nat.findGreatest_le _
      have h1 : P p0 := Nat.findGreatest_spec (m := 0) (Nat.zero_le _)
        (by simp [hP, partStart_zero])
      refine ⟨p0, by omega, h1, ?_⟩
      rcases Nat.eq_or_lt_of_le h0 with heq | hlt
      · have : partEnd n w p0 = n := by
          rw [partEnd_eq, show p0 + 1 = w by omega]
          exact partStart_last n w hw
        omega
      · have hnot : ¬P (p0 + 1) :=
          Nat.findGreatest_is_greatest (Nat.lt_succ_self _) (by omega)
        rw [partEnd_eq]
        simpa [hP] using hnot
    · rintro ⟨p, hp, _, h2⟩
      have : partEnd n w p ≤ n := by
        rw [partEnd_eq]
        calc partStart n w (p + 1) ≤ partStart n w w :=
              partStart_mono n w (by omega)
          _ = n := partStart_last n w hw
      omega
  · intro p q hp hq
    have l1 := part_size_lower n w q
    have u1 := part_size_upper n w p hw
    have h2 := partStart_le_partEnd n w p
    have h3 := partStart_le_partEnd n w q
    omega

/-- Witness for C4 at `n = 10`, `w = 4`: worker 3's share is at most one
larger than worker 0's. -/
theorem partition_disjoint_cover_balanced_witness :
    0 < 4 ∧
    partEnd 10 4 3 - partStart 10 4 3 ≤ partEnd 10 4 0 - partStart 10 4 0 + 1 :=
  ⟨by norm_num,
   (partition_disjoint_cover_balanced 10 4 (by norm_num)).2.2 3 0
     (by norm_num) (by norm_num)⟩

/-- C5: within a single `compute_forces` scan, for every detected
overlapping pair `(i, j)` the displacement contribution added to circle `j`
equals the negation of the contribution added to circle `i`, each scaled by
`1 / K`. -/
theorem displacement_antisymmetric (cs : List Circle) (i j : ℕ) (hij : i ≠ j)
    (hi : i < cs.length) (hj : j < cs.length)
    (hover : hypot ((nth cs j).x - (nth cs i).x) ((nth cs j).y - (nth cs i).y)
      < (nth cs i).r + (nth cs j).r - EPSILON) :
    (pairUpdate cs i j).2 = 1 ∧
    (nth (pairUpdate cs i j).1 i).dx - (nth cs i).dx =
      -(overlapX (nth cs i) (nth cs j) / K) ∧
    (nth (pairUpdate cs i j).1 i).dy - (nth cs i).dy =
      -(overlapY (nth cs i) (nth cs j) / K) ∧
    (nth (pairUpdate cs i j).1 j).dx - (nth cs j).dx =
      overlapX (nth cs i) (nth cs j) / K ∧
    (nth (pairUpdate cs i j).1 j).dy - (nth cs j).dy =
      overlapY (nth cs i) (nth cs j) / K ∧
    (nth (pairUpdate cs i j).1 j).dx - (nth cs j).dx =
      -((nth (pairUpdate cs i j).1 i).dx - (nth cs i).dx) ∧
    (nth (pairUpdate cs i j).1 j).dy - (nth cs j).dy =
      -((nth (pairUpdate cs i j).1 i).dy - (nth cs i).dy) := by
  rw [pairUpdate_overlap cs i j hij hover]
  dsimp only
  have hsi : i < (cs.set i
      { nth cs i with
        dx := (nth cs i).dx - overlapX (nth cs i) (nth cs j) / K,
        dy := (nth cs i).dy - overlapY (nth cs i) (nth cs j) / K }).length := by
    simpa using hi
  have hacci :
      nth ((cs.set i
        { nth cs i with
          dx := (nth cs i).dx - overlapX (nth cs i) (nth cs j) / K,
          dy := (nth cs i).dy - overlapY (nth cs i) (nth cs j) / K }).set j
        { nth cs j with
          dx := (nth cs j).dx + overlapX (nth cs i) (nth cs j) / K,
          dy := (nth cs j).dy + overlapY (nth cs i) (nth cs j) / K }) i =
      { nth cs i with
        dx := (nth cs i).dx - overlapX (nth cs i) (nth cs j) / K,
        dy := (nth cs i).dy - overlapY (nth cs i) (nth cs j) / K } := by
    rw [nth_set_ne _ _ _ _ (Ne.symm hij), nth_set_self _ _ _ hi]
  have haccj :
      nth ((cs.set i
        { nth cs i with
          dx := (nth cs i).dx - overlapX (nth cs i) (nth cs j) / K,
          dy := (nth cs i).dy - overlapY (nth cs i) (nth cs j) / K }).set j
        { nth cs j with
          dx := (nth cs j).dx + overlapX (nth cs i) (nth cs j) / K,
          dy := (nth cs j).dy + overlapY (nth cs i) (nth cs j) / K }) j =
      { nth cs j with
        dx := (nth cs j).dx + overlapX (nth cs i) (nth cs j) / K,
        dy := (nth cs j).dy + overlapY (nth cs i) (nth cs j) / K } := by
    rw [nth_set_self _ _ _ (by simpa using hj)]
  rw [hacci, haccj]
  refine ⟨rfl, by ring, by ring, by ring, by ring, by ring, by ring⟩

/-- Witness for C5 on the concrete scenario circles at indices `0` and
`1`. -/
theorem displacement_antisymmetric_witness :
    (0 : ℕ) ≠ 1 ∧
    ((pairUpdate [(⟨0, 0, 10, 0, 0⟩ : Circle), ⟨5, 0, 10, 0, 0⟩] 0 1).2 = 1 ∧
     (nth (pairUpdate [(⟨0, 0, 10, 0, 0⟩ : Circle), ⟨5, 0, 10, 0, 0⟩] 0 1).1 0).dx -
        (nth [(⟨0, 0, 10, 0, 0⟩ : Circle), ⟨5, 0, 10, 0, 0⟩] 0).dx =
       -(overlapX (nth [(⟨0, 0, 10, 0, 0⟩ : Circle), ⟨5, 0, 10, 0, 0⟩] 0)
          (nth [(⟨0, 0, 10, 0, 0⟩ : Circle), ⟨5, 0, 10, 0, 0⟩] 1) / K) ∧
     (nth (pairUpdate [(⟨0, 0, 10, 0, 0⟩ : Circle), ⟨5, 0, 10, 0, 0⟩] 0 1).1 0).dy -
        (nth [(⟨0, 0, 10, 0, 0⟩ : Circle), ⟨5, 0, 10, 0, 0⟩] 0).dy =
       -(overlapY (nth [(⟨0, 0, 10, 0, 0⟩ : Circle), ⟨5, 0, 10, 0, 0⟩] 0)
          (nth [(⟨0, 0, 10, 0, 0⟩ : Circle), ⟨5, 0, 10, 0, 0⟩] 1) / K) ∧
     (nth (pairUpdate [(⟨0, 0, 10, 0, 0⟩ : Circle), ⟨5, 0, 10, 0, 0⟩] 0 1).1 1).dx -
        (nth [(⟨0, 0, 10, 0, 0⟩ : Circle), ⟨5, 0, 10, 0, 0⟩] 1).dx =
       overlapX (nth [(⟨0, 0, 10, 0, 0⟩ : Circle), ⟨5, 0, 10, 0, 0⟩] 0)
          (nth [(⟨0, 0, 10, 0, 0⟩ : Circle), ⟨5, 0, 10, 0, 0⟩] 1) / K ∧
     (nth (pairUpdate [(⟨0, 0, 10, 0, 0⟩ : Circle), ⟨5, 0, 10, 0, 0⟩] 0 1).1 1).dy -
        (nth [(⟨0, 0, 10, 0, 0⟩ : Circle), ⟨5, 0, 10, 0, 0⟩] 1).dy =
       overlapY (nth [(⟨0, 0, 10, 0, 0⟩ : Circle), ⟨5, 0, 10, 0, 0⟩] 0)
          (nth [(⟨0, 0, 10, 0, 0⟩ : Circle), ⟨5, 0, 10, 0, 0⟩] 1) / K ∧
     (nth (pairUpdate [(⟨0, 0, 10, 0, 0⟩ : Circle), ⟨5, 0, 10, 0, 0⟩] 0 1).1 1).dx -
        (nth [(⟨0, 0, 10, 0, 0⟩ : Circle), ⟨5, 0, 10, 0, 0⟩] 1).dx =
       -((nth (pairUpdate [(⟨0, 0, 10, 0, 0⟩ : Circle), ⟨5, 0, 10, 0, 0⟩] 0 1).1 0).dx -
          (nth [(⟨0, 0, 10, 0, 0⟩ : Circle), ⟨5, 0, 10, 0, 0⟩] 0).dx) ∧
     (nth (pairUpdate [(⟨0, 0, 10, 0, 0⟩ : Circle), ⟨5, 0, 10, 0, 0⟩] 0 1).1 1).dy -
        (nth [(⟨0, 0, 10, 0, 0⟩ : Circle), ⟨5, 0, 10, 0, 0⟩] 1).dy =
       -((nth (pairUpdate [(⟨0, 0, 10, 0, 0⟩ : Circle), ⟨5, 0, 10, 0, 0⟩] 0 1).1 0).dy -
          (nth [(⟨0, 0, 10, 0, 0⟩ : Circle), ⟨5, 0, 10, 0, 0⟩] 0).dy)) :=
  ⟨by norm_num,
   displacement_antisymmetric [(⟨0, 0, 10, 0, 0⟩ : Circle), ⟨5, 0, 10, 0, 0⟩] 0 1
     (by norm_num) (by norm_num) (by norm_num)
     (by show hypot (5 - 0) (0 - 0) < 10 + 10 - EPSILON
         rw [show ((5 : ℝ) - 0) = 5 by norm_num,
           show ((0 : ℝ) - 0) = 0 by norm_num, hypot_axis]
         norm_num [EPSILON])⟩

lemma pairUpdate_nth_i (cs : List Circle) (i j : ℕ) (hij : i ≠ j)
    (hi : i < cs.length)
    (hover : hypot ((nth cs j).x - (nth cs i).x) ((nth cs j).y - (nth cs i).y)
      < (nth cs i).r + (nth cs j).r - EPSILON) :
    nth (pairUpdate cs i j).1 i =
      { nth cs i with
        dx := (nth cs i).dx - overlapX (nth cs i) (nth cs j) / K,
        dy := (nth cs i).dy - overlapY (nth cs i) (nth cs j) / K } := by
  rw [pairUpdate_overlap cs i j hij hover]
  dsimp only
  rw [nth_set_ne _ _ _ _ (Ne.symm hij), nth_set_self _ _ _ hi]

lemma pairUpdate_nth_j (cs : List Circle) (i j : ℕ) (hij : i ≠ j)
    (hj : j < cs.length)
    (hover : hypot ((nth cs j).x - (nth cs i).x) ((nth cs j).y - (nth cs i).y)
      < (nth cs i).r + (nth cs j).r - EPSILON) :
    nth (pairUpdate cs i j).1 j =
      { nth cs j with
        dx := (nth cs j).dx + overlapX (nth cs i) (nth cs j) / K,
        dy := (nth cs j).dy + overlapY (nth cs i) (nth cs j) / K } := by
  rw [pairUpdate_overlap cs i j hij hover]
  dsimp only
  rw [nth_set_self _ _ _ (by simpa using hj)]

/-- C6: for any pair of circles whose centers coincide but which overlap,
`compute_forces` produces a defined displacement using the fixed fallback
direction (`overlap / sqrt 2` on each axis) and never divides by `dist`:
the division branch is only reachable when `dist ≥ EPSILON > 0`. -/
theorem coincident_centers_fallback (cs : List Circle) (i j : ℕ) (hij : i ≠ j)
    (hi : i < cs.length) (hj : j < cs.length)
    (hx : (nth cs j).x = (nth cs i).x) (hy : (nth cs j).y = (nth cs i).y)
    (hr : EPSILON < (nth cs i).r + (nth cs j).r) :
    (pairUpdate cs i j).2 = 1 ∧
    overlapX (nth cs i) (nth cs j) =
      ((nth cs i).r + (nth cs j).r) / Real.sqrt 2 ∧
    overlapY (nth cs i) (nth cs j) =
      ((nth cs i).r + (nth cs j).r) / Real.sqrt 2 ∧
    (nth (pairUpdate cs i j).1 i).dx =
      (nth cs i).dx - ((nth cs i).r + (nth cs j).r) / Real.sqrt 2 / K ∧
    (nth (pairUpdate cs i j).1 i).dx < (nth cs i).dx ∧
    (nth cs j).dx < (nth (pairUpdate cs i j).1 j).dx ∧
    (∀ a b : ℝ, ¬ hypot a b < EPSILON → 0 < hypot a b) := by
  have hdist : hypot ((nth cs j).x - (nth cs i).x)
      ((nth cs j).y - (nth cs i).y) = 0 := by
    rw [hx, hy, sub_self, sub_self, hypot_zero]
  have hov : hypot ((nth cs j).x - (nth cs i).x) ((nth cs j).y - (nth cs i).y)
      < (nth cs i).r + (nth cs j).r - EPSILON := by
    rw [hdist]
    have := EPSILON_pos
    linarith
  have hnear : hypot ((nth cs j).x - (nth cs i).x)
      ((nth cs j).y - (nth cs i).y) < EPSILON := by
    rw [hdist]
    exact EPSILON_pos
  have hX : overlapX (nth cs i) (nth cs j) =
      ((nth cs i).r + (nth cs j).r) / Real.sqrt 2 := by
    rw [overlapX_near _ _ hnear, hdist, sub_zero]
  have hY : overlapY (nth cs i) (nth cs j) =
      ((nth cs i).r + (nth cs j).r) / Real.sqrt 2 := by
    rw [overlapY_near _ _ hnear, hdist, sub_zero]
  have hq : 0 < ((nth cs i).r + (nth cs j).r) / Real.sqrt 2 / K :=
    div_pos (div_pos (lt_trans EPSILON_pos hr) (Real.sqrt_pos.mpr two_pos))
      K_pos
  have hcount : (pairUpdate cs i j).2 = 1 := by
    rw [pairUpdate_overlap cs i j hij hov]
  have hni := pairUpdate_nth_i cs i j hij hi hov
  have hnj := pairUpdate_nth_j cs i j hij hj hov
  refine ⟨hcount, hX, hY, ?_, ?_, ?_, ?_⟩
  · rw [hni]
    dsimp only
    rw [hX]
  · rw [hni]
    dsimp only
    rw [hX]
    exact sub_lt_self _ hq
  · rw [hnj]
    dsimp only
    rw [hX]
    exact lt_add_of_pos_right _ hq
  · intro a b hab
    have h1 := hypot_nonneg a b
    have h2 := EPSILON_pos
    push_neg at hab
    linarith

/-- Witness for C6: two circles both centered at `(3, 4)` with radius
`10`. -/
theorem coincident_centers_fallback_witness :
    (0 : ℕ) ≠ 1 ∧
    EPSILON < (nth [(⟨3, 4, 10, 0, 0⟩ : Circle), ⟨3, 4, 10, 0, 0⟩] 0).r +
      (nth [(⟨3, 4, 10, 0, 0⟩ : Circle), ⟨3, 4, 10, 0, 0⟩] 1).r ∧
    ((pairUpdate [(⟨3, 4, 10, 0, 0⟩ : Circle), ⟨3, 4, 10, 0, 0⟩] 0 1).2 = 1 ∧
     overlapX (nth [(⟨3, 4, 10, 0, 0⟩ : Circle), ⟨3, 4, 10, 0, 0⟩] 0)
        (nth [(⟨3, 4, 10, 0, 0⟩ : Circle), ⟨3, 4, 10, 0, 0⟩] 1) =
       ((nth [(⟨3, 4, 10, 0, 0⟩ : Circle), ⟨3, 4, 10, 0, 0⟩] 0).r +
         (nth [(⟨3, 4, 10, 0, 0⟩ : Circle), ⟨3, 4, 10, 0, 0⟩] 1).r) / Real.sqrt 2 ∧
     overlapY (nth [(⟨3, 4, 10, 0, 0⟩ : Circle), ⟨3, 4, 10, 0, 0⟩] 0)
        (nth [(⟨3, 4, 10, 0, 0⟩ : Circle), ⟨3, 4, 10, 0, 0⟩] 1) =
       ((nth [(⟨3, 4, 10, 0, 0⟩ : Circle), ⟨3, 4, 10, 0, 0⟩] 0).r +
         (nth [(⟨3, 4, 10, 0, 0⟩ : Circle), ⟨3, 4, 10, 0, 0⟩] 1).r) / Real.sqrt 2 ∧
     (nth (pairUpdate [(⟨3, 4, 10, 0, 0⟩ : Circle), ⟨3, 4, 10, 0, 0⟩] 0 1).1 0).dx =
       (nth [(⟨3, 4, 10, 0, 0⟩ : Circle), ⟨3, 4, 10, 0, 0⟩] 0).dx -
         ((nth [(⟨3, 4, 10, 0, 0⟩ : Circle), ⟨3, 4, 10, 0, 0⟩] 0).r +
           (nth [(⟨3, 4, 10, 0, 0⟩ : Circle), ⟨3, 4, 10, 0, 0⟩] 1).r) /
             Real.sqrt 2 / K ∧
     (nth (pairUpdate [(⟨3, 4, 10, 0, 0⟩ : Circle), ⟨3, 4, 10, 0, 0⟩] 0 1).1 0).dx <
       (nth [(⟨3, 4, 10, 0, 0⟩ : Circle), ⟨3, 4, 10, 0, 0⟩] 0).dx ∧
     (nth [(⟨3, 4, 10, 0, 0⟩ : Circle), ⟨3, 4, 10, 0, 0⟩] 1).dx <
       (nth (pairUpdate [(⟨3, 4, 10, 0, 0⟩ : Circle), ⟨3, 4, 10, 0, 0⟩] 0 1).1 1).dx ∧
     (∀ a b : ℝ, ¬ hypot a b < EPSILON → 0 < hypot a b)) :=
  ⟨by norm_num,
   by show EPSILON < 10 + 10
      norm_num [EPSILON],
   coincident_centers_fallback [(⟨3, 4, 10, 0, 0⟩ : Circle), ⟨3, 4, 10, 0, 0⟩] 0 1
     (by norm_num) (by norm_num) (by norm_num) rfl rfl
     (by show EPSILON < 10 + 10
         norm_num [EPSILON])⟩

/-- C7: whenever `compute_forces` detects an overlap
(`dist < Rsum - EPSILON` with `EPSILON = 1e-5`), the computed overlap value
`Rsum - dist` is strictly positive, so `assert(overlap > 0.0)` can never
fail. -/
theorem overlap_positive_on_detection (ci cj : Circle)
    (h : hypot (cj.x - ci.x) (cj.y - ci.y) < ci.r + cj.r - EPSILON) :
    0 < ci.r + cj.r - hypot (cj.x - ci.x) (cj.y - ci.y) := by
  have he := EPSILON_pos
  linarith

/-- Witness for C7 on the concrete scenario circles. -/
theorem overlap_positive_on_detection_witness :
    0 < (⟨0, 0, 10, 0, 0⟩ : Circle).r + (⟨5, 0, 10, 0, 0⟩ : Circle).r -
      hypot ((⟨5, 0, 10, 0, 0⟩ : Circle).x - (⟨0, 0, 10, 0, 0⟩ : Circle).x)
        ((⟨5, 0, 10, 0, 0⟩ : Circle).y - (⟨0, 0, 10, 0, 0⟩ : Circle).y) :=
  overlap_positive_on_detection ⟨0, 0, 10, 0, 0⟩ ⟨5, 0, 10, 0, 0⟩
    (by show hypot (5 - 0) (0 - 0) < 10 + 10 - EPSILON
        rw [show ((5 : ℝ) - 0) = 5 by norm_num,
          show ((0 : ℝ) - 0) = 0 by norm_num, hypot_axis]
        norm_num [EPSILON])

/-- C9: for `n = 1` every iteration produces an overlap count of zero and
leaves the circle's position unchanged. -/
theorem single_circle_identity (c : Circle) :
    (mpiIteration 1 1 [c]).2 = 0 ∧
    (nth (mpiIteration 1 1 [c]).1 0).x = c.x ∧
    (nth (mpiIteration 1 1 [c]).1 0).y = c.y := by
  unfold mpiIteration
  rw [reset_single]
  norm_num [partStart, partEnd, compute_single, mpiMerge, nth, move_circles,
    show List.range 1 = [0] from rfl]

/-- C10: `compute_forces` leaves `x`, `y` and `r` of every circle
unchanged, and `move_circles` leaves `r`, `dx` and `dy` unchanged while
adding the pending displacement to the position. -/
theorem forces_move_frame (start e n : ℕ) (cs : List Circle) (idx : ℕ) :
    (nth (compute_forces start e n cs).1 idx).x = (nth cs idx).x ∧
    (nth (compute_forces start e n cs).1 idx).y = (nth cs idx).y ∧
    (nth (compute_forces start e n cs).1 idx).r = (nth cs idx).r ∧
    (nth (move_circles cs) idx).r = (nth cs idx).r ∧
    (nth (move_circles cs) idx).dx = (nth cs idx).dx ∧
    (nth (move_circles cs) idx).dy = (nth cs idx).dy ∧
    (nth (move_circles cs) idx).x = (nth cs idx).x + (nth cs idx).dx ∧
    (nth (move_circles cs) idx).y = (nth cs idx).y + (nth cs idx).dy := by
  obtain ⟨hlen, hsp⟩ := compute_forces_frameOK start e n cs
  obtain ⟨hx, hy, hr⟩ := hsp idx
  rw [nth_move]
  exact ⟨hx, hy, hr, rfl, rfl, rfl, rfl, rfl⟩

/-- C1 (failing-input evaluation): on the scenario pair, the aggregated
per-iteration overlap total is `2` both with one worker and with two
workers; the unordered pair `{0, 1}` is included twice (once per ordered
orientation), not once. -/
theorem aggregated_total_counts_pair_twice :
    (mpiIteration 2 1 twoCircles).2 = 2 ∧ (mpiIteration 2 2 twoCircles).2 = 2 := by
  rw [show twoCircles = [(⟨0, 0, 10, 0, 0⟩ : Circle), ⟨5, 0, 10, 0, 0⟩] from rfl,
    scenario_iter_w1, scenario_iter_w2]
  exact ⟨rfl, rfl⟩

/-- C2 (failing-input evaluation): with two workers on the scenario pair,
the merged per-circle displacement for circle 0 is `-10`, but the sum over
workers of their local contributions to circle 0 is `-20`: the in-place
allgather keeps only the block owner's value and discards worker 1's
cross-partition contribution. -/
theorem merge_discards_cross_partition_writes :
    (nth (mpiMerge 2 2 (fun p =>
        (compute_forces (partStart 2 2 p) (partEnd 2 2 p) 2 twoCircles).1)) 0).dx
      = -10 ∧
    (nth (compute_forces (partStart 2 2 0) (partEnd 2 2 0) 2 twoCircles).1 0).dx +
      (nth (compute_forces (partStart 2 2 1) (partEnd 2 2 1) 2 twoCircles).1 0).dx
      = -20 ∧
    ((-10 : ℝ) ≠ -20) := by
  rw [show twoCircles = [(⟨0, 0, 10, 0, 0⟩ : Circle), ⟨5, 0, 10, 0, 0⟩] from rfl]
  norm_num [partStart, partEnd, mpiMerge, nth,
    scenario_compute_w2_rank0, scenario_compute_w2_rank1,
    show List.range 2 = [0, 1] from rfl]

/-- C3 (failing-input evaluation): on the same initial circle set, the
single-worker and two-worker runs report the same overlap total for the
first iteration but produce different positions for circle 0 (`-20`
against `-10`): the worker count changes the result. -/
theorem parallel_run_differs_from_serial :
    (mpiIteration 2 1 twoCircles).2 = (mpiIteration 2 2 twoCircles).2 ∧
    (nth (mpiIteration 2 1 twoCircles).1 0).x = -20 ∧
    (nth (mpiIteration 2 2 twoCircles).1 0).x = -10 ∧
    (nth (mpiIteration 2 1 twoCircles).1 0).x ≠
      (nth (mpiIteration 2 2 twoCircles).1 0).x := by
  rw [show twoCircles = [(⟨0, 0, 10, 0, 0⟩ : Circle), ⟨5, 0, 10, 0, 0⟩] from rfl,
    scenario_iter_w1, scenario_iter_w2]
  norm_num [nth]

/-- C8 (failing-input evaluation): one iteration of the scenario on one
worker reports overlap total `2` (the claim expects `1`), while the motion
itself is as claimed: symmetric separation along the x axis, no y motion. -/
theorem scenario_iteration_reports_two_overlaps :
    (mpiIteration 2 1 twoCircles).2 = 2 ∧
    (nth (mpiIteration 2 1 twoCircles).1 0).x = -20 ∧
    (nth (mpiIteration 2 1 twoCircles).1 1).x = 25 ∧
    (nth (mpiIteration 2 1 twoCircles).1 0).y = 0 ∧
    (nth (mpiIteration 2 1 twoCircles).1 1).y = 0 ∧
    (nth (mpiIteration 2 1 twoCircles).1 0).x - (nth twoCircles 0).x =
      -((nth (mpiIteration 2 1 twoCircles).1 1).x - (nth twoCircles 1).x) := by
  rw [show twoCircles = [(⟨0, 0, 10, 0, 0⟩ : Circle), ⟨5, 0, 10, 0, 0⟩] from rfl,
    scenario_iter_w1]
  norm_num [nth]

end Circles
